import Mathlib

/-!
Verification of the deployment-platform backend (Flask control API, RQ worker,
Docker manager, SQL deployment store, Redis log bus) against its natural
language specification.

The Python sources are shallowly embedded: dictionaries become structures,
SQL tables become lists or finite maps, the Docker engine and the Redis
connection become explicit parameters (oracles for outcomes, effect lists for
commands issued).  Each definition mirrors one Python function and is named
after it.
-/

namespace DeployPlatform

/-- A config document (`config` dict in the source): a list of key/value
pairs.  The claims never inspect individual keys, only copy documents
wholesale, so string values suffice. -/
def Config : Type := List (String × String)

instance : DecidableEq Config := by
  unfold Config
  infer_instance

instance : Inhabited Config := ⟨([] : List (String × String))⟩

/-- One deployment record, mirroring the dict built in `app.py` and the row
of the `deployments` table (`db_manager.py`).  Nullable columns are
`Option`s. -/
structure Deployment where
  id : String
  projectName : Option String := none
  deploymentType : Option String := none
  status : String
  url : String := ""
  directUrl : Option String := none
  timestamp : String := ""
  containerId : Option String := none
  port : Option Nat := none
  source : Option String := none
  repo : Option String := none
  branch : Option String := none
  filename : Option String := none
  config : Config := []
  environmentVariables : List (String × String) := []
  version : Nat := 1
  healthCheckPath : Option String := none
  autoRestart : Option Bool := none
  volumePath : Option String := none
  customDomain : Option String := none
deriving DecidableEq

/-- One row of the `deployment_versions` table, in the dict shape returned by
`DatabaseManager.get_deployment_versions`. -/
structure Version where
  version : Nat
  containerId : Option String := none
  timestamp : String := ""
  config : Config := []
  status : String := "previous"
deriving DecidableEq

/-- One row of the `metrics` table. -/
structure MetricRow where
  depId : String
  timestamp : String
  cpuPercent : ℚ
  memoryMb : ℚ
  networkRxMb : ℚ
  networkTxMb : ℚ
deriving DecidableEq

/-- The deployment store: the rows of the `deployments` table (unique `id`,
the primary key), the `deployment_versions` table as the list of inserted
rows tagged with their `deployment_id`, and the `metrics` table, each in
insertion order. -/
structure Store where
  deployments : List Deployment
  versions : List (String × Version)
  metrics : List MetricRow := []

/-- `DatabaseManager.get_deployment` (success path): `SELECT * FROM
deployments WHERE id = ?`. -/
def get_deployment (s : Store) (depId : String) : Option Deployment :=
  s.deployments.find? (fun d => d.id == depId)

/-- `DatabaseManager.save_deployment` (success path): the
`INSERT OR REPLACE` / `ON CONFLICT DO UPDATE` upsert keyed by `id`. -/
def save_deployment (s : Store) (d : Deployment) : Store :=
  { s with deployments :=
      if s.deployments.any (fun x => x.id == d.id) then
        s.deployments.map (fun x => if x.id == d.id then d else x)
      else
        s.deployments ++ [d] }

/-- `DatabaseManager.save_deployment_version` (success path): a plain
`INSERT INTO deployment_versions`. No row is ever deleted by this function. -/
def db_save_deployment_version (s : Store) (depId : String) (v : Version) : Store :=
  { s with versions := s.versions ++ [(depId, v)] }

/-- `DatabaseManager.delete_deployment` (success path): `DELETE FROM
deployments WHERE id = ?`; returns whether a row was deleted
(`cursor.rowcount > 0`). -/
def db_delete_deployment (s : Store) (depId : String) : Bool × Store :=
  (s.deployments.any (fun d => d.id == depId),
   { s with deployments := s.deployments.filter (fun d => !(d.id == depId)) })

/-- The ordering used by `ORDER BY version DESC`. -/
def versionGE (a b : Version) : Prop := b.version ≤ a.version

instance : DecidableRel versionGE := fun a b => Nat.decLe b.version a.version

instance : IsTotal Version versionGE :=
  ⟨fun a b => (Nat.le_total b.version a.version).imp id id⟩

instance : IsTrans Version versionGE :=
  ⟨fun _ _ _ h1 h2 => Nat.le_trans h2 h1⟩

/-- `DatabaseManager.get_deployment_versions` (success path): `SELECT * FROM
deployment_versions WHERE deployment_id = ? ORDER BY version DESC`.  Newest
(highest) version first, oldest last. -/
def get_deployment_versions (s : Store) (depId : String) : List Version :=
  List.insertionSort versionGE
    ((s.versions.filter (fun r => r.1 == depId)).map (fun r => r.2))

/-- Python truthiness of an optional string (`if oldest_version['containerId']:`):
`None` and the empty string are falsy. -/
def truthy : Option String → Bool
  | none => false
  | some s => !s.isEmpty

/-- Commands issued to the container engine.  `stopContainer` records a call
to `DockerManager.stop_container` (which swallows its own errors),
`startContainer` a `containers.get(id).start()`, `build` an image build.
Rollback never builds. -/
inductive DockerEffect
  | stopContainer (containerId : Option String)
  | startContainer (containerId : Option String)
  | build (tag : String)
deriving DecidableEq

/-- Outcome of one HTTP handler run: response status, resulting store, and
the engine commands issued, in order. -/
structure HandlerOutcome where
  httpStatus : Nat
  store : Store
  effects : List DockerEffect

/-- `app.py rollback_deployment` (`POST /api/deployments/<id>/rollback`).
`reqVersion` is the request body's optional `version`; Python's
`if target_version:` treats `0` like an omitted version, which is mirrored
here.  `startOk` is the engine's answer to starting the target's container
(`old_container.start()`); when it is false the `except` branch returns 500
and the record is not updated.  `now` is `datetime.now().isoformat()`. -/
def rollback_deployment (s : Store) (depId : String) (reqVersion : Option Nat)
    (startOk : Bool) (now : String) : HandlerOutcome :=
  match get_deployment s depId with
  | none => ⟨404, s, []⟩
  | some dep =>
    let history := get_deployment_versions s depId
    if history.isEmpty then ⟨400, s, []⟩
    else
      let target? : Option Version :=
        match reqVersion with
        | some tv =>
          if tv ≠ 0 then history.find? (fun v => v.version == tv)
          else history.getLast?
        | none => history.getLast?
      match target? with
      | none => ⟨404, s, []⟩
      | some target =>
        let stopEff := DockerEffect.stopContainer dep.containerId
        let startEff := DockerEffect.startContainer target.containerId
        if startOk then
          let dep' := { dep with
            containerId := target.containerId
            config := target.config
            timestamp := now
            version := target.version }
          ⟨200, save_deployment s dep', [stopEff, startEff]⟩
        else
          ⟨500, s, [stopEff, startEff]⟩

/-- `app.py save_deployment_version` (the helper, not the store method):
reads the existing versions, inserts a new row numbered
`len(existing_versions) + 1`, and, when 10 or more versions already exist,
stops the container of `existing_versions[-1]` (the oldest, since the list
is ordered newest first).  The row of the oldest version is not deleted. -/
def save_deployment_version (s : Store) (deployment : Deployment) :
    Store × List DockerEffect :=
  let depId := deployment.id
  let existing := get_deployment_versions s depId
  let nextVersion := existing.length + 1
  let v : Version := {
    version := nextVersion
    containerId := deployment.containerId
    timestamp := deployment.timestamp
    config := deployment.config
    status := "previous" }
  let s' := db_save_deployment_version s depId v
  let effects :=
    if existing.length ≥ 10 then
      match existing.getLast? with
      | some oldest =>
        if truthy oldest.containerId then
          [DockerEffect.stopContainer oldest.containerId]
        else []
      | none => []
    else []
  (s', effects)

/-- The `type` field of a log-bus event (`tasks.py emit_log_redis` /
the `done` payloads). -/
inductive LogType
  | info
  | log
  | success
  | error
  | done
deriving DecidableEq

/-- One JSON event on the `logs:{deployment_id}` Redis list.  `success` is
only present on `done` events. -/
structure LogRecord where
  type : LogType
  message : String := ""
  success : Option Bool := none
deriving DecidableEq

/-- `tasks.py run_deployment_task`, the worker-side deployment executor.

The calls into `DockerManager.deploy_static_site` / `deploy_web_service`
are abstracted by `deployResult`: `Except.ok (containerId, hostPort)` when
the build-and-run pipeline returns, `Except.error msg` when any step raises
(the executor catches every exception).  `midLogs` are the messages the
pipeline pushed through its `log_callback` before returning; the Redis list
appends they produce are reproduced in the returned event list.
`publicIp` is `os.getenv('PUBLIC_IP', 'localhost')`.

Returns the updated store and the events appended to the deployment's log
list, in append order.  The function is total: no input makes it throw,
and when the deployment record is absent the record update is skipped. -/
def run_deployment_task (s : Store) (depId : String)
    (deployResult : Except String (String × Nat)) (publicIp : String)
    (midLogs : List String) : Store × List LogRecord :=
  let pickup : LogRecord :=
    { type := LogType.info, message := "🚀 Worker picked up job for " ++ depId }
  let mids := midLogs.map (fun m => { type := LogType.log, message := m : LogRecord })
  match deployResult with
  | Except.ok (cid, port) =>
    let publicUrl := "http://" ++ publicIp ++ ":" ++ toString port
    let s' :=
      match get_deployment s depId with
      | some dep =>
        save_deployment s { dep with
          status := "active"
          containerId := some cid
          port := some port
          directUrl := some publicUrl
          url := publicUrl }
      | none => s
    let successEv : LogRecord :=
      { type := LogType.success
        message := "✅ Deployment successful! Live at: " ++ publicUrl }
    let doneEv : LogRecord := { type := LogType.done, success := some true }
    (s', pickup :: mids ++ [successEv, doneEv])
  | Except.error msg =>
    let errorEv : LogRecord :=
      { type := LogType.error, message := "❌ Deployment failed: " ++ msg }
    let doneEv : LogRecord := { type := LogType.done, success := some false }
    let s' :=
      match get_deployment s depId with
      | some dep => save_deployment s { dep with status := "failed" }
      | none => s
    (s', pickup :: mids ++ [errorEv, doneEv])

/-- The deployment record built by `app.py deploy_stream`
(`POST /api/deploy-stream`, remote-repository submission) right before the
job is enqueued.  Note the literal `'status': 'building'` in the source. -/
def deploy_stream_record (depId projectName deploymentType repo branch now : String)
    (config : Config) (envVars : List (String × String))
    (volumeName : Option String) : Deployment :=
  { id := depId
    projectName := some projectName
    deploymentType := some deploymentType
    status := "building"
    url := "/deploy/" ++ depId ++ "/"
    directUrl := none
    timestamp := now
    containerId := none
    port := none
    source := some "github"
    repo := some repo
    branch := some branch
    config := config
    environmentVariables := envVars
    version := 1
    volumePath := volumeName
    customDomain := none }

/-- The deployment record built by `app.py deploy_local`
(`POST /api/deploy-local`, uploaded-archive submission): `'status': 'queued'`. -/
def deploy_local_record (depId projectName deploymentType filename now : String)
    (config : Config) (envVars : List (String × String))
    (volumeName : Option String) : Deployment :=
  { id := depId
    projectName := some projectName
    deploymentType := some deploymentType
    status := "queued"
    url := "/deploy/" ++ depId ++ "/"
    directUrl := none
    timestamp := now
    containerId := none
    port := none
    source := some "local"
    filename := some filename
    config := config
    environmentVariables := envVars
    version := 1
    volumePath := volumeName
    customDomain := none }

/-- One SSE `data:` frame produced by `app.py stream_logs_endpoint`:
the initial attach notice, a forwarded log-bus record, or the timeout
error frame. -/
inductive Frame
  | attach
  | record (r : LogRecord)
  | timeout
deriving DecidableEq

/-- The inner `for log_raw in logs:` loop of the SSE generator: forward each
new record as a frame and stop (returning `true`) right after the first
record whose `type` is `done`. -/
def forwardBatch : List LogRecord → List Frame × Bool
  | [] => ([], false)
  | r :: rs =>
    if r.type = LogType.done then ([Frame.record r], true)
    else
      let (fs, d) := forwardBatch rs
      (Frame.record r :: fs, d)

/-- The `while True:` poll loop of the SSE generator in
`app.py stream_logs_endpoint` (the same loop is inlined in `deploy_stream`).

Each element of `snaps` is the full content of the `logs:{id}` Redis list
as seen by one `lrange` poll; the loop reads the slice past `lastIdx`.
An empty slice bumps `emptyReads` and, once it exceeds 2400, the timeout
error frame is emitted and the generator returns; otherwise the generator
sleeps 0.5 s (counted in the second component) and polls again.  A
non-empty slice is forwarded and resets `emptyReads`.  The third component
is true when the generator returned (stream closed) and false when the
poll schedule was exhausted with the stream still open.  The loop only
reads the bus: it performs no store or engine operation. -/
def sseRun : List (List LogRecord) → Nat → Nat → List Frame × Nat × Bool
  | [], _, _ => ([], 0, false)
  | snap :: rest, lastIdx, emptyReads =>
    let news := snap.drop lastIdx
    if news.isEmpty then
      if emptyReads + 1 > 2400 then ([Frame.timeout], 0, true)
      else
        let (fs, sleeps, closed) := sseRun rest lastIdx (emptyReads + 1)
        (fs, sleeps + 1, closed)
    else
      let (fs, d) := forwardBatch news
      if d then (fs, 0, true)
      else
        let (fs', sleeps, closed) := sseRun rest (lastIdx + news.length) 0
        (fs ++ fs', sleeps, closed)

/-- `app.py stream_logs_endpoint` (`GET /api/deployments/<id>/stream`):
emit the attach frame, then run the poll loop from offset 0. -/
def stream_logs_generate (snaps : List (List LogRecord)) : List Frame × Nat × Bool :=
  let (fs, sleeps, closed) := sseRun snaps 0 0
  (Frame.attach :: fs, sleeps, closed)

/-- The bus records among a frame list, in order. -/
def recordsOf : List Frame → List LogRecord
  | [] => []
  | Frame.record r :: fs => r :: recordsOf fs
  | _ :: fs => recordsOf fs

/-- Whether `needle` occurs as a contiguous run inside the character list
(Python's `needle in haystack` on strings). -/
def listContains (needle : List Char) : List Char → Bool
  | [] => needle.isEmpty
  | c :: t => needle.isPrefixOf (c :: t) || listContains needle t

/-- Python's `needle in haystack` for strings. -/
def strContains (haystack needle : String) : Bool :=
  listContains needle.toList haystack.toList

/-- Python's `s.lower()`, character by character. -/
def lowerChars (l : List Char) : List Char :=
  l.map Char.toLower

/-- `needle in haystack.lower()` as `_detect_project_type` tests
framework names against `requirements.txt` text. -/
def strContainsLower (haystack needle : String) : Bool :=
  listContains needle.toList (lowerChars haystack.toList)

/-- The parsed `package.json` as `auto_detector.py` uses it: the key sets of
`scripts` and of `dependencies` merged with `devDependencies`. -/
structure PackageJson where
  scripts : List String
  dependencies : List String
deriving DecidableEq

/-- The marker files `ProjectDetector._scan_directory` collects, restricted
to those `_detect_project_type` consults.  `requirements` is the raw text of
`requirements.txt` when the file exists. -/
structure ProjectFiles where
  requirements : Option String := none
  hasAppPy : Bool := false
  hasMainPy : Bool := false
  hasManagePy : Bool := false
  hasPomXml : Bool := false
  hasBuildGradle : Bool := false
  packageJson : Option PackageJson := none
  hasServerJs : Bool := false
  hasIndexJs : Bool := false
  hasIndexHtml : Bool := false
deriving DecidableEq

/-- The result dict of `ProjectDetector._detect_project_type`. -/
structure DetectionType where
  type : String
  runtime : String
  buildTool : Option String := none
deriving DecidableEq

/-- The Python web-framework markers searched in `requirements.txt`. -/
def pythonFrameworks : List String :=
  ["django", "flask", "fastapi", "uvicorn", "starlette"]

/-- The frontend dependencies that indicate a static build. -/
def frontendDeps : List String :=
  ["vite", "next", "gatsby", "vue", "react", "angular", "svelte"]

/-- The server-framework dependencies that indicate a Node.js service. -/
def serverDeps : List String :=
  ["express", "koa", "fastify", "hapi", "nestjs"]

/-- `ProjectDetector._detect_project_type`, rule for rule in source order.
`requirements.txt` is lowercased before the substring test
(`read_text().lower()`). -/
def detect_project_type (f : ProjectFiles) : DetectionType :=
  if (match f.requirements with
      | some content =>
        pythonFrameworks.any (fun fw => strContainsLower content fw)
      | none => false) then
    { type := "service", runtime := "python" }
  else if f.hasAppPy || f.hasMainPy || f.hasManagePy then
    { type := "service", runtime := "python" }
  else if f.hasPomXml then
    { type := "service", runtime := "java", buildTool := some "maven" }
  else if f.hasBuildGradle then
    { type := "service", runtime := "java", buildTool := some "gradle" }
  else
    let pkgResult : Option DetectionType :=
      match f.packageJson with
      | none => none
      | some pkg =>
        if frontendDeps.any (fun d => pkg.dependencies.contains d) &&
            pkg.scripts.contains "build" then
          some { type := "static", runtime := "nodejs" }
        else if serverDeps.any (fun d => pkg.dependencies.contains d) then
          some { type := "service", runtime := "nodejs" }
        else if f.hasServerJs || f.hasIndexJs then
          some { type := "service", runtime := "nodejs" }
        else if pkg.scripts.contains "build" then
          some { type := "static", runtime := "nodejs" }
        else none
    match pkgResult with
    | some r => r
    | none =>
      if f.hasIndexHtml then { type := "static", runtime := "static" }
      else { type := "static", runtime := "static" }

/-- The detection rules exactly as the specification words them, applied in
order with first match winning: (1) a `requirements.txt` containing any of
django/flask/fastapi/uvicorn/starlette yields service/python; (2) presence
of `app.py`, `main.py`, or `manage.py` yields service/python; (3) `pom.xml`
yields service/java (maven) and `build.gradle` service/java (gradle); (4)
for `package.json`: a frontend dependency with a `build` script yields
static/nodejs, a server-framework dependency or presence of
`server.js`/`index.js` yields service/nodejs, otherwise a `build` script
yields static/nodejs; (5) `index.html` yields static/static; (6) the
fallback for every remaining input is static/static.  This definition is
written from the specification text, to be compared with
`detect_project_type`, which is written from the source. -/
def detect_spec_rules (f : ProjectFiles) : DetectionType :=
  let rule1 : Option DetectionType :=
    match f.requirements with
    | some content =>
      if pythonFrameworks.any (fun fw => strContainsLower content fw) then
        some { type := "service", runtime := "python" }
      else none
    | none => none
  let rule2 : Option DetectionType :=
    if f.hasAppPy || f.hasMainPy || f.hasManagePy then
      some { type := "service", runtime := "python" }
    else none
  let rule3 : Option DetectionType :=
    if f.hasPomXml then
      some { type := "service", runtime := "java", buildTool := some "maven" }
    else if f.hasBuildGradle then
      some { type := "service", runtime := "java", buildTool := some "gradle" }
    else none
  let rule4 : Option DetectionType :=
    match f.packageJson with
    | some pkg =>
      if frontendDeps.any (fun d => pkg.dependencies.contains d) &&
          pkg.scripts.contains "build" then
        some { type := "static", runtime := "nodejs" }
      else if serverDeps.any (fun d => pkg.dependencies.contains d) ||
          (f.hasServerJs || f.hasIndexJs) then
        some { type := "service", runtime := "nodejs" }
      else if pkg.scripts.contains "build" then
        some { type := "static", runtime := "nodejs" }
      else none
    | none => none
  let rule5 : Option DetectionType :=
    if f.hasIndexHtml then some { type := "static", runtime := "static" }
    else none
  ((((rule1.or rule2).or rule3).or rule4).or rule5).getD
    { type := "static", runtime := "static" }

/-- Python's `str.replace(pat, rep)`: replace every (leftmost,
non-overlapping) occurrence of `pat`.  Structural recursion on a fuel that
the wrapper sets to the input length, which suffices because every step
consumes at least one character when `pat` is non-empty; the source only
calls it with non-empty patterns (an empty pattern leaves the list
unchanged here). -/
def replaceCharsAux (pat rep : List Char) : Nat → List Char → List Char
  | 0, l => l
  | _, [] => []
  | fuel + 1, c :: cs =>
    if !pat.isEmpty && pat.isPrefixOf (c :: cs) then
      rep ++ replaceCharsAux pat rep fuel (List.drop pat.length (c :: cs))
    else
      c :: replaceCharsAux pat rep fuel cs

/-- Python's `s.replace(pat, rep)` on character lists. -/
def pyReplace (l pat rep : List Char) : List Char :=
  replaceCharsAux pat rep l.length l

/-- Python's `s.strip()`: drop whitespace from both ends. -/
def trimChars (l : List Char) : List Char :=
  ((l.dropWhile Char.isWhitespace).reverse.dropWhile Char.isWhitespace).reverse

/-- The comparator stripping applied to `engines.node` in
`docker_manager.py`:
`node_req.replace('^','').replace('~','').replace('>=','').replace('>','').replace('=','').strip()`. -/
def strip_comparators (s : String) : List Char :=
  trimChars
    (pyReplace
      (pyReplace (pyReplace (pyReplace (pyReplace s.toList ['^'] []) ['~'] [])
        ['>', '='] []) ['>'] []) ['='] [])

/-- Decimal value of a digit run. -/
def digitsToNat (ds : List Char) : Nat :=
  ds.foldl (fun a c => a * 10 + (c.toNat - Char.toNat '0')) 0

/-- Python's `re.search(r'(\d+)', s)` followed by `int(...)`: the first
maximal run of digits, as a number. -/
def firstInt : List Char → Option Nat
  | [] => none
  | c :: cs =>
    if c.isDigit then some (digitsToNat ((c :: cs).takeWhile Char.isDigit))
    else firstInt cs

/-- Node major selection in `DockerManager.deploy_static_site` (static-site
build stage).  Default `'22'`; a parsed first integer is snapped
`≥22→22, ≥20→20, ≥18→18, ≥16→16, else 18`; when no integer is found the
default stands.  `enginesNode` is `package.json.engines.node` when
declared. -/
def node_version_static (enginesNode : Option String) : Nat :=
  match enginesNode with
  | none => 22
  | some req =>
    match firstInt (strip_comparators req) with
    | some m =>
      if m ≥ 22 then 22
      else if m ≥ 20 then 20
      else if m ≥ 18 then 18
      else if m ≥ 16 then 16
      else 18
    | none => 22

/-- Node major selection in `DockerManager._create_nodejs_dockerfile`
(production Node.js service).  Default `'18'`; a parsed first integer is
snapped `≥20→20, ≥18→18, else 16`.  There is no 22 branch in this path. -/
def node_version_service (enginesNode : Option String) : Nat :=
  match enginesNode with
  | none => 18
  | some req =>
    match firstInt (strip_comparators req) with
    | some m =>
      if m ≥ 20 then 20
      else if m ≥ 18 then 18
      else 16
    | none => 18

/-- Node major selection in `DockerManager._deploy_nodejs_dev` (dev mode).
Default `'20'`; a parsed first integer is snapped `≥20→20, ≥18→18,
else 16`. -/
def node_version_dev (enginesNode : Option String) : Nat :=
  match enginesNode with
  | none => 20
  | some req =>
    match firstInt (strip_comparators req) with
    | some m =>
      if m ≥ 20 then 20
      else if m ≥ 18 then 18
      else 16
    | none => 20

/-- The per-category quotas of `RateLimiter.default_limits`
(`max_requests`, `window` in seconds); an unknown category falls back to
`api`, as in `default_limits.get(limit_type, default_limits['api'])`. -/
def rate_limits (limitType : String) : Nat × Nat :=
  if limitType = "deploy" then (10, 3600)
  else if limitType = "upload" then (5, 3600)
  else (100, 60)

/-- `RateLimiter.is_allowed`: drop request times older than the window,
refuse (recording nothing) when the kept list has reached `max_requests`,
otherwise record `now` and report the remaining quota.  Returns
(allowed, remaining, updated time list). -/
def is_allowed (times : List Nat) (limitType : String) (now : Nat) :
    Bool × Nat × List Nat :=
  let maxRequests := (rate_limits limitType).1
  let window := (rate_limits limitType).2
  let kept := times.filter (fun t => now - t < window)
  if kept.length ≥ maxRequests then (false, 0, kept)
  else (true, maxRequests - (kept.length + 1), kept ++ [now])

/-- An HTTP response as the rate-limit decorator manipulates it: status
code and response headers. -/
structure HttpResponse where
  status : Nat
  headers : List (String × String)
deriving DecidableEq

/-- The `rate_limit` decorator of `rate_limiter.py` around one request:
over the limit it returns 429 immediately — before the header-adding code,
so the 429 carries no `X-RateLimit-*` headers; otherwise it runs the
handler (`inner`) and appends `X-RateLimit-Remaining` and
`X-RateLimit-Limit` to its response. -/
def rate_limit (times : List Nat) (limitType : String) (now : Nat)
    (inner : HttpResponse) : HttpResponse × List Nat :=
  let r := is_allowed times limitType now
  if r.1 then
    ({ status := inner.status
       headers := inner.headers ++
         [("X-RateLimit-Remaining", toString r.2.1),
          ("X-RateLimit-Limit", toString (rate_limits limitType).1)] },
     r.2.2)
  else
    ({ status := 429, headers := [] }, r.2.2)

/-- The resource-relevant part of a `containers.run(...)` call: the values
passed for `mem_limit`, `cpu_period` and `cpu_quota` (absent when the call
site does not pass the keyword), together with the `type` label, restart
policy and container name of the call. -/
structure RunSpec where
  memLimit : Option String := none
  cpuPeriod : Option Nat := none
  cpuQuota : Option Nat := none
  typeLabel : String
  restartPolicy : String := "unless-stopped"
  name : String
deriving DecidableEq

/-- `int(float(cpu_limit) * 100000)` for a non-negative decimal string such
as `'0.5'`, computed with exact decimal arithmetic (the binary-float
rounding of the Python expression is immaterial at the precisions the knob
uses). -/
def splitOnDot : List Char → List (List Char)
  | [] => [[]]
  | c :: cs =>
    if c = '.' then [] :: splitOnDot cs
    else
      match splitOnDot cs with
      | [] => [[c]]
      | p :: ps => (c :: p) :: ps

def cpu_quota_of (s : String) : Nat :=
  match splitOnDot s.toList with
  | [a] => digitsToNat a * 100000
  | [a, b] => digitsToNat a * 100000 + digitsToNat b * 100000 / 10 ^ b.length
  | _ => 0

/-- The `containers.run` call of `DockerManager.deploy_static_site`: no
`mem_limit`, no `cpu_period`, no `cpu_quota` keyword is passed. -/
def static_run_spec (depId : String) : RunSpec :=
  { typeLabel := "static", name := "deploy-" ++ depId }

/-- The `containers.run` call of `DockerManager.deploy_web_service`
(production Python/Node.js): `mem_limit` from `CONTAINER_MEMORY_LIMIT`
(default `'512m'`), `cpu_period=100000`, and
`cpu_quota=int(float(CONTAINER_CPU_LIMIT or '0.5') * 100000)`.  `memEnv`
and `cpuEnv` are the environment knobs when set. -/
def web_service_run_spec (memEnv cpuEnv : Option String) (depId : String) :
    RunSpec :=
  { memLimit := some (memEnv.getD "512m")
    cpuPeriod := some 100000
    cpuQuota := some (cpu_quota_of (cpuEnv.getD "0.5"))
    typeLabel := "web-service"
    name := "web-" ++ depId }

/-- The `containers.run` call of `DockerManager._deploy_nodejs_dev`: no
resource keywords are passed. -/
def nodejs_dev_run_spec (depId : String) : RunSpec :=
  { typeLabel := "web-service-dev", name := "dev-" ++ depId }

/-- The `containers.run` call of `DockerManager.deploy_java_service`: no
resource keywords are passed (the JVM gets `-Xmx512m` via `JAVA_OPTS`, but
the container itself is unlimited). -/
def java_run_spec (depId : String) : RunSpec :=
  { typeLabel := "web-service", name := "java-" ++ depId }

/-- `DatabaseManager.get_all_deployments` (success path): `SELECT * FROM
deployments ORDER BY timestamp DESC`. -/
def timestampGE (a b : Deployment) : Prop := b.timestamp ≤ a.timestamp

instance : DecidableRel timestampGE := fun a b =>
  inferInstanceAs (Decidable (b.timestamp ≤ a.timestamp))

instance : IsTotal Deployment timestampGE :=
  ⟨fun a b => le_total b.timestamp a.timestamp⟩

instance : IsTrans Deployment timestampGE :=
  ⟨fun _ _ _ h1 h2 => le_trans h2 h1⟩

def get_all_deployments (s : Store) : List Deployment :=
  List.insertionSort timestampGE s.deployments

/-- The metric-row sample computed by `DatabaseManager.save_metrics` from a
Docker stats document, with exact arithmetic in place of Python floats:
`cpu_percent = total_usage / system_cpu_usage * 100` (0 when
`system_cpu_usage` is 0), `memory_mb = usage / 2^20`, and the rx/tx byte
counts of `networks.eth0` divided by `2^20`. -/
structure DockerStats where
  totalUsage : Nat
  systemCpuUsage : Nat
  memoryUsage : Nat
  rxBytes : Nat
  txBytes : Nat
deriving DecidableEq

def metric_row_of (depId : String) (now : String) (stats : DockerStats) : MetricRow :=
  { depId := depId
    timestamp := now
    cpuPercent :=
      if 0 < stats.systemCpuUsage then
        (stats.totalUsage : ℚ) / (stats.systemCpuUsage : ℚ) * 100
      else 0
    memoryMb := (stats.memoryUsage : ℚ) / (1024 * 1024)
    networkRxMb := (stats.rxBytes : ℚ) / (1024 * 1024)
    networkTxMb := (stats.txBytes : ℚ) / (1024 * 1024) }

/-- `DatabaseManager.get_metrics` (success path, SQLite dialect):
`SELECT ... WHERE deployment_id = ? ORDER BY timestamp DESC LIMIT hours*60`. -/
def metricGE (a b : MetricRow) : Prop := b.timestamp ≤ a.timestamp

instance : DecidableRel metricGE := fun a b =>
  inferInstanceAs (Decidable (b.timestamp ≤ a.timestamp))

instance : IsTotal MetricRow metricGE :=
  ⟨fun a b => le_total b.timestamp a.timestamp⟩

instance : IsTrans MetricRow metricGE :=
  ⟨fun _ _ _ h1 h2 => le_trans h2 h1⟩

def get_metrics_rows (s : Store) (depId : String) (hours : Nat) : List MetricRow :=
  (List.insertionSort metricGE (s.metrics.filter (fun m => m.depId == depId))).take
    (hours * 60)

namespace DatabaseManager

/-!
The `DatabaseManager` methods each wrap their whole body in
`try: ... except Exception: return <fallback>`.  The interaction with the
database engine is abstracted by a `db : Except String Store` argument:
`Except.ok s` when the connection and the statements succeed against store
state `s`, `Except.error e` when anything in the body raises.  Each wrapper
returns the fallback value of its `except` branch on an error, and the
success-path result (defined above from the SQL) otherwise.  None of them
can propagate an exception: they are total functions.
-/

/-- `DatabaseManager.save_deployment` with its exception handler: `True` on
success, `False` on any database error. -/
def save_deployment (db : Except String Store) (d : Deployment) :
    Bool × Except String Store :=
  match db with
  | Except.error e => (false, Except.error e)
  | Except.ok s => (true, Except.ok (DeployPlatform.save_deployment s d))

/-- `DatabaseManager.save_deployment_version` with its exception handler. -/
def save_deployment_version (db : Except String Store) (depId : String)
    (v : Version) : Bool × Except String Store :=
  match db with
  | Except.error e => (false, Except.error e)
  | Except.ok s => (true, Except.ok (db_save_deployment_version s depId v))

/-- `DatabaseManager.save_metrics` with its exception handler. -/
def save_metrics (db : Except String Store) (depId : String) (now : String)
    (stats : DockerStats) : Bool × Except String Store :=
  match db with
  | Except.error e => (false, Except.error e)
  | Except.ok s =>
    (true, Except.ok { s with metrics := s.metrics ++ [metric_row_of depId now stats] })

/-- `DatabaseManager.delete_deployment` with its exception handler: `False`
on any database error (and also when no row matched). -/
def delete_deployment (db : Except String Store) (depId : String) :
    Bool × Except String Store :=
  match db with
  | Except.error e => (false, Except.error e)
  | Except.ok s =>
    let r := db_delete_deployment s depId
    (r.1, Except.ok r.2)

/-- `DatabaseManager.get_deployment` with its exception handler: `None` on
any database error. -/
def get_deployment (db : Except String Store) (depId : String) :
    Option Deployment :=
  match db with
  | Except.error _ => none
  | Except.ok s => DeployPlatform.get_deployment s depId

/-- `DatabaseManager.get_all_deployments` with its exception handler: the
empty list on any database error. -/
def get_all_deployments (db : Except String Store) : List Deployment :=
  match db with
  | Except.error _ => []
  | Except.ok s => DeployPlatform.get_all_deployments s

/-- `DatabaseManager.get_deployment_versions` with its exception handler:
the empty list on any database error. -/
def get_deployment_versions (db : Except String Store) (depId : String) :
    List Version :=
  match db with
  | Except.error _ => []
  | Except.ok s => DeployPlatform.get_deployment_versions s depId

/-- `DatabaseManager.get_metrics` with its exception handler: the empty
list on any database error. -/
def get_metrics (db : Except String Store) (depId : String) (hours : Nat) :
    List MetricRow :=
  match db with
  | Except.error _ => []
  | Except.ok s => get_metrics_rows s depId hours

end DatabaseManager

/-!
Concrete example inputs used to instantiate the theorems below.
-/

/-- A stored version 1 (the oldest rollout) of deployment `d1`. -/
def exVersion1 : Version :=
  { version := 1, containerId := some "c1", timestamp := "t1", config := [("k", "v1")] }

/-- A stored version 2 (the most recent rollout) of deployment `d1`. -/
def exVersion2 : Version :=
  { version := 2, containerId := some "c2", timestamp := "t2", config := [("k", "v2")] }

/-- The active deployment record of `d1`, currently at version 2. -/
def exDep : Deployment :=
  { id := "d1", status := "active", containerId := some "c-live",
    timestamp := "t2", config := [("k", "v2")], version := 2 }

/-- A store holding `d1` with two previous versions. -/
def exStore : Store :=
  { deployments := [exDep], versions := [("d1", exVersion1), ("d1", exVersion2)] }

/-- The record the claim's reading of rollback would produce on `exStore`
with the version omitted: target = the most recent version (version 2),
and `timestamp` replaced by the target's timestamp. -/
def exClaimExpected : Deployment :=
  { exDep with
    containerId := some "c2"
    config := [("k", "v2")]
    version := 2
    timestamp := "t2" }

/-- The record the code actually produces on `exStore` (rollback at
`now = "t9"` with the version omitted). -/
def exRolledBack : Deployment :=
  { exDep with
    containerId := some "c1"
    config := [("k", "v1")]
    version := 1
    timestamp := "t9" }

/-- A deployment holding ten saved versions `1..10` with containers
`c1..c10`. -/
def exStore10 : Store :=
  { deployments := [exDep],
    versions := (List.range 10).map (fun i =>
      ("d1", { version := i + 1, containerId := some ("c" ++ toString (i + 1)),
               timestamp := "t" ++ toString (i + 1) : Version })) }

/-- A store holding one record that is still `building`. -/
def exBuildingDep : Deployment :=
  { id := "d9", status := "building", timestamp := "t0" }

def exBuildingStore : Store :=
  { deployments := [exBuildingDep], versions := [] }

/-- A two-poll bus schedule: the first poll sees one info record, the
second also sees the terminal `done`. -/
def exInfoRec : LogRecord := { type := LogType.info, message := "cloning" }

def exDoneRec : LogRecord := { type := LogType.done, success := some true }

def exBus : List LogRecord := [exInfoRec, exDoneRec]

def exSnaps : List (List LogRecord) := [[exInfoRec], [exInfoRec, exDoneRec]]

/-!
Helper lemmas shared by the claim theorems.
-/

/-- In a version list sorted by `ORDER BY version DESC`, the last element
has the minimal version number. -/
theorem versionGE_getLast_min :
    ∀ (l : List Version), l.Sorted versionGE → ∀ y, l.getLast? = some y →
      ∀ x ∈ l, y.version ≤ x.version := by
  intro l
  induction l with
  | nil => intro _ y hy; simp at hy
  | cons a t ih =>
    intro hs y hy x hx
    rcases List.sorted_cons.mp hs with ⟨ha, ht⟩
    cases t with
    | nil =>
      simp only [List.getLast?_singleton, Option.some.injEq] at hy
      simp only [List.mem_singleton] at hx
      subst hy
      subst hx
      exact Nat.le_refl _
    | cons b t2 =>
      rw [List.getLast?_cons_cons] at hy
      rcases List.mem_cons.mp hx with rfl | hx2
      · exact ha y (List.mem_of_mem_getLast? hy)
      · exact ih ht y hy x hx2

/-- Appending a version row for `depId` grows the version list for `depId`
by exactly one. -/
theorem get_versions_insert_length (s : Store) (depId : String) (v : Version) :
    (get_deployment_versions (db_save_deployment_version s depId v) depId).length
      = (get_deployment_versions s depId).length + 1 := by
  unfold get_deployment_versions db_save_deployment_version
  simp [List.length_insertionSort, List.filter_append]

/-- Membership after the `save_deployment` upsert: every record of the new
table is the saved record or was already present. -/
theorem mem_save_deployment {s : Store} {d x : Deployment}
    (hx : x ∈ (save_deployment s d).deployments) :
    x = d ∨ x ∈ s.deployments := by
  unfold save_deployment at hx
  by_cases hany : s.deployments.any (fun y => y.id == d.id)
  · simp only [hany, if_true] at hx
    rcases List.mem_map.mp hx with ⟨y, hy, hxy⟩
    by_cases hid : y.id == d.id
    · simp only [hid, if_true] at hxy
      exact Or.inl hxy.symm
    · simp only [hid, if_false] at hxy
      exact Or.inr (hxy ▸ hy)
  · simp only [hany, if_false] at hx
    rcases List.mem_append.mp hx with h | h
    · exact Or.inr h
    · exact Or.inl (List.mem_singleton.mp h)

/-- Reading back a record right after upserting it. -/
theorem get_save_deployment (s : Store) (d : Deployment) :
    get_deployment (save_deployment s d) d.id = some d := by
  unfold get_deployment save_deployment
  by_cases hany : s.deployments.any (fun y => y.id == d.id)
  · simp only [hany, if_true]
    have : ∀ (l : List Deployment), l.any (fun y => y.id == d.id) = true →
        (l.map (fun x => if x.id == d.id then d else x)).find?
          (fun x => x.id == d.id) = some d := by
      intro l
      induction l with
      | nil => simp
      | cons a t ih =>
        intro hl
        by_cases hid : a.id == d.id
        · simp [List.find?, hid]
        · simp only [List.any_cons, hid, Bool.false_or] at hl
          simp only [List.map_cons, hid, if_false, List.find?, ih hl]
          simp [hid]
    exact this s.deployments hany
  · simp only [hany, if_false, List.find?_append]
    have hnone : s.deployments.find? (fun x => x.id == d.id) = none := by
      apply List.find?_eq_none.mpr
      intro x hx
      by_contra hcon
      exact hany (List.any_eq_true.mpr ⟨x, hx, by simpa using hcon⟩)
    simp [hnone, List.find?]

/-!
Claim C9 — resource limits on started containers.
-/

/-- Claim C9, counterexample.  The claim states that every container
started by the platform is run with a memory limit and a CPU quota.  The
static-site, dev-mode, and Java `containers.run` calls pass neither
`mem_limit` nor `cpu_quota`, refuting the claim at the concrete deployment
id `d1`. -/
theorem resource_limits_counterexample :
    (static_run_spec "d1").memLimit = none ∧
    (static_run_spec "d1").cpuQuota = none ∧
    (nodejs_dev_run_spec "d1").memLimit = none ∧
    (nodejs_dev_run_spec "d1").cpuQuota = none ∧
    (java_run_spec "d1").memLimit = none ∧
    (java_run_spec "d1").cpuQuota = none := by
  decide

/-- Claim C9, amended: only the production web-service path
(`DockerManager.deploy_web_service`) runs its container with a memory limit
(default `512m`, overridable via `CONTAINER_MEMORY_LIMIT`) and a CPU quota
(`cpu_period` 100000 and quota `cpu×100000`, default 0.5 CPU = 50000,
overridable via `CONTAINER_CPU_LIMIT`); the static-site, Node.js dev-mode,
and Java containers are run without any resource limits. -/
theorem resource_limits_spec (memEnv cpuEnv : Option String) (depId : String) :
    (web_service_run_spec memEnv cpuEnv depId).memLimit
        = some (memEnv.getD "512m") ∧
    (web_service_run_spec memEnv cpuEnv depId).cpuPeriod = some 100000 ∧
    (web_service_run_spec memEnv cpuEnv depId).cpuQuota
        = some (cpu_quota_of (cpuEnv.getD "0.5")) ∧
    (web_service_run_spec none none depId).memLimit = some "512m" ∧
    (web_service_run_spec none none depId).cpuQuota = some 50000 ∧
    (static_run_spec depId).memLimit = none ∧
    (static_run_spec depId).cpuQuota = none ∧
    (nodejs_dev_run_spec depId).memLimit = none ∧
    (nodejs_dev_run_spec depId).cpuQuota = none ∧
    (java_run_spec depId).memLimit = none ∧
    (java_run_spec depId).cpuQuota = none := by
  refine ⟨rfl, rfl, rfl, rfl, ?_, rfl, rfl, rfl, rfl, rfl, rfl⟩
  have : cpu_quota_of "0.5" = 50000 := by decide
  simp [web_service_run_spec, this]

/-!
Claim C10 — the deployment store swallows its own errors.
-/

/-- Claim C10: every `DatabaseManager` operation catches its own database
errors.  On any database error the writers (`save_deployment`,
`save_deployment_version`, `save_metrics`, `delete_deployment`) return
`False` instead of raising, and the readers (`get_deployment`,
`get_all_deployments`, `get_deployment_versions`, `get_metrics`) return
`None` or the empty list; on success each returns its success-path result,
so no store failure propagates to the API handlers or the executor. -/
theorem store_error_swallowing (e : String) (d : Deployment) (depId now : String)
    (v : Version) (stats : DockerStats) (hours : Nat) (s : Store) :
    (DatabaseManager.save_deployment (Except.error e) d).1 = false ∧
    (DatabaseManager.save_deployment_version (Except.error e) depId v).1 = false ∧
    (DatabaseManager.save_metrics (Except.error e) depId now stats).1 = false ∧
    (DatabaseManager.delete_deployment (Except.error e) depId).1 = false ∧
    DatabaseManager.get_deployment (Except.error e) depId = none ∧
    DatabaseManager.get_all_deployments (Except.error e) = [] ∧
    DatabaseManager.get_deployment_versions (Except.error e) depId = [] ∧
    DatabaseManager.get_metrics (Except.error e) depId hours = [] ∧
    (DatabaseManager.save_deployment (Except.ok s) d)
        = (true, Except.ok (save_deployment s d)) ∧
    (DatabaseManager.save_deployment_version (Except.ok s) depId v)
        = (true, Except.ok (db_save_deployment_version s depId v)) ∧
    (DatabaseManager.delete_deployment (Except.ok s) depId).1
        = (db_delete_deployment s depId).1 ∧
    DatabaseManager.get_deployment (Except.ok s) depId = get_deployment s depId ∧
    DatabaseManager.get_all_deployments (Except.ok s) = get_all_deployments s ∧
    DatabaseManager.get_deployment_versions (Except.ok s) depId
        = get_deployment_versions s depId ∧
    DatabaseManager.get_metrics (Except.ok s) depId hours
        = get_metrics_rows s depId hours := by
  exact ⟨rfl, rfl, rfl, rfl, rfl, rfl, rfl, rfl, rfl, rfl, rfl, rfl, rfl, rfl, rfl⟩

/-!
Claim C6 — rate limiting.
-/

/-- Claim C6, counterexample.  The claim states that every over-limit
response includes remaining-quota headers.  An 11th deploy request within
the window from one address gets status 429 with an empty header list: the
decorator returns before the header-adding code runs. -/
theorem rate_limit_counterexample :
    (rate_limit (List.replicate 10 1000) "deploy" 1000
        { status := 200, headers := [] }).1
      = { status := 429, headers := [] } ∧
    (rate_limit (List.replicate 10 1000) "deploy" 1000
        { status := 200, headers := [] }).1.headers = [] := by
  decide

/-- Claim C6, amended: per client address and category, requests beyond the
per-window quota (`deploy` 10 per 3600 s, `upload` 5 per 3600 s, `api` 100
per 60 s) receive HTTP status 429 — but the over-limit response carries no
quota headers; the `X-RateLimit-Remaining` and `X-RateLimit-Limit` headers
are attached to allowed responses only. -/
theorem rate_limit_spec (times : List Nat) (limitType : String) (now : Nat)
    (inner : HttpResponse) :
    rate_limits "deploy" = (10, 3600) ∧
    rate_limits "upload" = (5, 3600) ∧
    rate_limits "api" = (100, 60) ∧
    ((rate_limits limitType).1 ≤
        (times.filter (fun t => now - t < (rate_limits limitType).2)).length →
      (rate_limit times limitType now inner).1 = { status := 429, headers := [] }) ∧
    ((times.filter (fun t => now - t < (rate_limits limitType).2)).length <
        (rate_limits limitType).1 →
      (rate_limit times limitType now inner).1.status = inner.status ∧
      ("X-RateLimit-Remaining",
        toString ((rate_limits limitType).1 -
          ((times.filter (fun t => now - t < (rate_limits limitType).2)).length + 1)))
        ∈ (rate_limit times limitType now inner).1.headers ∧
      ("X-RateLimit-Limit", toString (rate_limits limitType).1)
        ∈ (rate_limit times limitType now inner).1.headers) := by
  refine ⟨rfl, rfl, rfl, ?_, ?_⟩
  · intro hover
    unfold rate_limit is_allowed
    simp only [ge_iff_le, hover, if_true]
    simp
  · intro hunder
    unfold rate_limit is_allowed
    have hnot : ¬ ((rate_limits limitType).1 ≤
        (times.filter (fun t => now - t < (rate_limits limitType).2)).length) :=
      Nat.not_le.mpr hunder
    simp only [ge_iff_le, hnot, if_false]
    refine ⟨rfl, ?_, ?_⟩ <;> simp

/-- Claim C6, witness: the amended theorem applied at a full window (11th
deploy within the hour) and at an empty window. -/
theorem rate_limit_spec_witness :
    ((10 : Nat) ≤ ((List.replicate 10 1000).filter
        (fun t => 1000 - t < 3600)).length ∧
      (rate_limit (List.replicate 10 1000) "deploy" 1000
          { status := 200, headers := [] }).1
        = { status := 429, headers := [] }) ∧
    ((([] : List Nat).filter (fun t => 1000 - t < 3600)).length < 10 ∧
      ("X-RateLimit-Limit", toString (10 : Nat))
        ∈ (rate_limit [] "deploy" 1000 { status := 200, headers := [] }).1.headers) :=
  ⟨⟨by decide,
    (rate_limit_spec (List.replicate 10 1000) "deploy" 1000
      { status := 200, headers := [] }).2.2.2.1 (by decide)⟩,
   ⟨by decide,
    ((rate_limit_spec [] "deploy" 1000
      { status := 200, headers := [] }).2.2.2.2 (by decide)).2.2⟩⟩

/-!
Claim C4 — Node.js major version selection.
-/

/-- Claim C4, counterexample.  The claim states that the snapping table
`≥22→22, ≥20→20, ≥18→18, ≥16→16, else 18` applies in every deployment path
and in particular that a project declaring `engines.node = ">=22"` builds
on node 22.  In the Node.js service dockerfile and in dev mode the
selection has no 22 branch: `">=22"` selects node 20 there. -/
theorem node_version_counterexample :
    node_version_service (some ">=22") = 20 ∧
    node_version_dev (some ">=22") = 20 ∧
    node_version_static (some ">=22") = 22 ∧
    (20 : Nat) ≠ 22 := by
  refine ⟨by decide, by decide, by decide, by decide⟩

/-- Claim C4, amended: the comparator-stripped first integer of
`engines.node` is snapped `≥22→22, ≥20→20, ≥18→18, ≥16→16, else 18` in the
static-site path only (default 22 there).  The Node.js service dockerfile
snaps `≥20→20, ≥18→18, else 16` with default 18, and dev mode uses the same
table with default 20.  A project declaring `">=22"` therefore builds on
node 22 for a static site but on node 20 as a Node.js service or in dev
mode; one declaring `"16"` builds on node 16 in every path. -/
theorem node_version_spec (req : String) (m : Nat) :
    (firstInt (strip_comparators req) = some m →
      node_version_static (some req) =
        (if m ≥ 22 then 22 else if m ≥ 20 then 20 else if m ≥ 18 then 18
          else if m ≥ 16 then 16 else 18) ∧
      node_version_service (some req) =
        (if m ≥ 20 then 20 else if m ≥ 18 then 18 else 16) ∧
      node_version_dev (some req) =
        (if m ≥ 20 then 20 else if m ≥ 18 then 18 else 16)) ∧
    node_version_static none = 22 ∧
    node_version_service none = 18 ∧
    node_version_dev none = 20 ∧
    node_version_static (some "16") = 16 ∧
    node_version_service (some "16") = 16 ∧
    node_version_dev (some "16") = 16 ∧
    node_version_static (some ">=22") = 22 ∧
    node_version_service (some ">=22") = 20 ∧
    node_version_dev (some ">=22") = 20 := by
  refine ⟨?_, rfl, rfl, rfl, by decide, by decide, by decide, by decide,
    by decide, by decide⟩
  intro h
  simp only [node_version_static, node_version_service, node_version_dev, h]
  exact ⟨trivial, trivial, trivial⟩

/-- Claim C4, witness: the amended theorem applied at `">=18.12"`, whose
comparator-stripped first integer is 18. -/
theorem node_version_spec_witness :
    firstInt (strip_comparators ">=18.12") = some 18 ∧
    node_version_static (some ">=18.12") =
      (if 18 ≥ 22 then 22 else if 18 ≥ 20 then 20 else if 18 ≥ 18 then 18
        else if 18 ≥ 16 then 16 else 18) :=
  ⟨by decide, ((node_version_spec ">=18.12" 18).1 (by decide)).1⟩

/-!
Claim C5 — status of records created at submit time.
-/

/-- Claim C5, counterexample.  The claim states that every record created
at submit time has status `queued`.  `deploy_stream` (remote-repository
submission) writes its initial record with the literal status `building`. -/
theorem submit_status_counterexample :
    (deploy_stream_record "d1" "proj" "static" "user/repo" "main" "t0" [] []
        none).status = "building" ∧
    ("building" : String) ≠ "queued" := by
  refine ⟨rfl, by decide⟩

/-- Claim C5, amended: an uploaded-archive submission (`deploy-local`)
creates its record with status `queued`, but a remote-repository submission
(`deploy-stream`) creates its record with status `building` already at
submit time.  The worker itself never writes `building`: every record the
executor stores has status `active` or `failed`, so any `building` record
in the store after a worker run was already there before it. -/
theorem submit_status_spec :
    (∀ depId projectName deploymentType repo branch now config envVars volumeName,
      (deploy_stream_record depId projectName deploymentType repo branch now
        config envVars volumeName).status = "building") ∧
    (∀ depId projectName deploymentType filename now config envVars volumeName,
      (deploy_local_record depId projectName deploymentType filename now
        config envVars volumeName).status = "queued") ∧
    (∀ (s : Store) (depId : String) (res : Except String (String × Nat))
        (ip : String) (midLogs : List String) (d' : Deployment),
      d' ∈ (run_deployment_task s depId res ip midLogs).1.deployments →
      d'.status = "building" → d' ∈ s.deployments) := by
  refine ⟨fun _ _ _ _ _ _ _ _ _ => rfl, fun _ _ _ _ _ _ _ _ => rfl, ?_⟩
  intro s depId res ip midLogs d' hmem hstatus
  cases res with
  | ok pr =>
    obtain ⟨cid, port⟩ := pr
    simp only [run_deployment_task] at hmem
    rcases hget : get_deployment s depId with _ | dep
    · rw [hget] at hmem
      exact hmem
    · rw [hget] at hmem
      dsimp only at hmem
      rcases mem_save_deployment hmem with heq | hin
      · rw [heq] at hstatus
        simp at hstatus
      · exact hin
  | error msg =>
    simp only [run_deployment_task] at hmem
    rcases hget : get_deployment s depId with _ | dep
    · rw [hget] at hmem
      exact hmem
    · rw [hget] at hmem
      dsimp only at hmem
      rcases mem_save_deployment hmem with heq | hin
      · rw [heq] at hstatus
        simp at hstatus
      · exact hin

/-- Claim C5, witness: the amended theorem applied to the `deploy-local`
record builder, and to a worker run over a store holding a `building`
record for another deployment. -/
theorem submit_status_spec_witness :
    (deploy_local_record "d2" "proj" "static" "a.zip" "t0" [] [] none).status
      = "queued" ∧
    exBuildingDep ∈ (run_deployment_task exBuildingStore "other"
        (Except.ok ("c7", 8080)) "1.2.3.4" []).1.deployments ∧
    exBuildingDep ∈ exBuildingStore.deployments :=
  ⟨submit_status_spec.2.1 "d2" "proj" "static" "a.zip" "t0" [] [] none,
   by decide,
   submit_status_spec.2.2 exBuildingStore "other" (Except.ok ("c7", 8080))
     "1.2.3.4" [] exBuildingDep (by decide) rfl⟩

/-!
Claim C8 — project-detection rules.
-/

/-- The source detector and the specification-worded rule list agree on
every input. -/
theorem detect_agrees (f : ProjectFiles) :
    detect_project_type f = detect_spec_rules f := by
  rcases f with ⟨req, a, m, g, p, bg, pkg, sj, ij, ih⟩
  unfold detect_project_type detect_spec_rules
  cases req with
  | some content =>
    by_cases h1 : pythonFrameworks.any (fun fw => strContainsLower content fw) = true
    · simp only [h1]; rfl
    · replace h1 := Bool.not_eq_true _ ▸ h1
      simp only [h1]
      cases a <;> cases m <;> cases g <;> cases p <;> cases bg <;> try rfl
      all_goals
        cases pkg with
        | none => cases ih <;> rfl
        | some pkgv =>
          by_cases h4a : (frontendDeps.any (fun d => pkgv.dependencies.contains d) &&
              pkgv.scripts.contains "build") = true
          · simp only [h4a]; rfl
          · replace h4a := Bool.not_eq_true _ ▸ h4a
            simp only [h4a]
            by_cases h4b : serverDeps.any (fun d => pkgv.dependencies.contains d) = true
            · simp only [h4b]; rfl
            · replace h4b := Bool.not_eq_true _ ▸ h4b
              simp only [h4b]
              cases sj <;> cases ij <;> try rfl
              all_goals
                by_cases h4d : pkgv.scripts.contains "build" = true
                · simp only [h4d]; rfl
                · replace h4d := Bool.not_eq_true _ ▸ h4d
                  simp only [h4d]
                  cases ih <;> rfl
  | none =>
    cases a <;> cases m <;> cases g <;> cases p <;> cases bg <;> try rfl
    all_goals
      cases pkg with
      | none => cases ih <;> rfl
      | some pkgv =>
        by_cases h4a : (frontendDeps.any (fun d => pkgv.dependencies.contains d) &&
            pkgv.scripts.contains "build") = true
        · simp only [h4a]; rfl
        · replace h4a := Bool.not_eq_true _ ▸ h4a
          simp only [h4a]
          by_cases h4b : serverDeps.any (fun d => pkgv.dependencies.contains d) = true
          · simp only [h4b]; rfl
          · replace h4b := Bool.not_eq_true _ ▸ h4b
            simp only [h4b]
            cases sj <;> cases ij <;> try rfl
            all_goals
              by_cases h4d : pkgv.scripts.contains "build" = true
              · simp only [h4d]; rfl
              · replace h4d := Bool.not_eq_true _ ▸ h4d
                simp only [h4d]
                cases ih <;> rfl

/-- Claim C8: the detection rules are applied in order with first match
winning, exactly as the specification lists them; `detect_project_type`
(from the source) agrees with `detect_spec_rules` (from the specification
text) on every input, and the rules give the expected results on concrete
projects. -/
theorem detection_rules_spec :
    (∀ f, detect_project_type f = detect_spec_rules f) ∧
    detect_project_type { requirements := some "Flask==3.0" }
      = { type := "service", runtime := "python" } ∧
    detect_project_type
        { packageJson := some { scripts := ["build"], dependencies := ["react"] } }
      = { type := "static", runtime := "nodejs" } ∧
    detect_project_type
        { packageJson := some { scripts := [], dependencies := ["express"] } }
      = { type := "service", runtime := "nodejs" } ∧
    detect_project_type { hasPomXml := true }
      = { type := "service", runtime := "java", buildTool := some "maven" } ∧
    detect_project_type { hasIndexHtml := true }
      = { type := "static", runtime := "static" } ∧
    detect_project_type {} = { type := "static", runtime := "static" } :=
  ⟨detect_agrees, by decide, by decide, by decide, by decide, by decide, by decide⟩


/-!
Claim C2 — version retention.
-/

/-- Claim C2, counterexample.  The claim states that the number of stored
versions never exceeds 10 and that saving an 11th version removes the
oldest from the store.  On a store already holding 10 versions, the helper
inserts the 11th row and stops the oldest container, but deletes nothing:
11 rows remain. -/
theorem version_retention_counterexample :
    (get_deployment_versions exStore10 "d1").length = 10 ∧
    (get_deployment_versions (save_deployment_version exStore10 exDep).1
        "d1").length = 11 ∧
    ¬ ((get_deployment_versions (save_deployment_version exStore10 exDep).1
        "d1").length ≤ 10) ∧
    (save_deployment_version exStore10 exDep).2
      = [DockerEffect.stopContainer (some "c1")] := by
  refine ⟨by decide, by decide, by decide, by decide⟩

/-- Claim C2, amended: saving a version always grows the deployment's
stored version list by one — no row is ever evicted, so the count exceeds
10 as soon as an 11th version is saved.  When 10 or more versions already
exist, the container of the oldest stored version is stopped (its row
remains); below 10 no container is stopped. -/
theorem version_retention_spec (s : Store) (d : Deployment) (oldest : Version)
    (hold : (get_deployment_versions s d.id).getLast? = some oldest)
    (hcid : truthy oldest.containerId = true) :
    (get_deployment_versions (save_deployment_version s d).1 d.id).length
      = (get_deployment_versions s d.id).length + 1 ∧
    (10 ≤ (get_deployment_versions s d.id).length →
      (save_deployment_version s d).2
        = [DockerEffect.stopContainer oldest.containerId]) ∧
    ((get_deployment_versions s d.id).length < 10 →
      (save_deployment_version s d).2 = []) := by
  refine ⟨?_, ?_, ?_⟩
  · unfold save_deployment_version
    exact get_versions_insert_length s d.id _
  · intro hge
    unfold save_deployment_version
    dsimp only
    rw [if_pos hge, hold]
    dsimp only
    rw [if_pos hcid]
  · intro hlt
    unfold save_deployment_version
    dsimp only
    rw [if_neg (Nat.not_le.mpr hlt)]

/-- Claim C2, witness: the amended theorem applied to the 10-version
store. -/
theorem version_retention_spec_witness :
    (get_deployment_versions exStore10 "d1").getLast?
      = some { version := 1, containerId := some "c1", timestamp := "t1" } ∧
    truthy (some "c1" : Option String) = true ∧
    (10 ≤ (get_deployment_versions exStore10 "d1").length ∧
      (save_deployment_version exStore10 exDep).2
        = [DockerEffect.stopContainer (some "c1")]) :=
  ⟨by decide, by decide,
   ⟨by decide,
    (version_retention_spec exStore10 exDep
      { version := 1, containerId := some "c1", timestamp := "t1" }
      (by decide) (by decide)).2.1 (by decide)⟩⟩

/-!
Claim C1 — rollback target selection and record update.
-/

/-- Claim C1, counterexample.  The claim states that a rollback request
without a `version` selects the most recent previous version and replaces
the record's fields (including `timestamp`) with the target's values.  On a
store whose history is versions `[2, 1]` (newest first), the handler picks
the last element — version 1, the oldest — and stamps the record with the
current time `t9`, not the target's timestamp. -/
theorem rollback_counterexample :
    (rollback_deployment exStore "d1" none true "t9").httpStatus = 200 ∧
    get_deployment (rollback_deployment exStore "d1" none true "t9").store "d1"
      = some exRolledBack ∧
    (get_deployment_versions exStore "d1").map (fun v => v.version) = [2, 1] ∧
    exRolledBack.version = 1 ∧
    exRolledBack ≠ exClaimExpected ∧
    exRolledBack.timestamp ≠ exVersion1.timestamp := by
  refine ⟨by decide, by decide, by decide, by decide, by decide, by decide⟩

/-- Claim C1, amended: a rollback request without a `version` on an
existing deployment with non-empty history selects the OLDEST stored
version (the last element of the version-DESC-ordered history, with the
minimal version number); the currently active container is stopped and the
target version's already-built container is started by its id, with no
build; the record's `containerId`, `config`, and `version` are replaced by
the target's values while `timestamp` is set to the current time; the
status is left untouched, so the deployment never re-enters
`queued`/`building`. -/
theorem rollback_spec (s : Store) (depId now : String) (dep : Deployment)
    (target : Version)
    (hdep : get_deployment s depId = some dep)
    (htgt : (get_deployment_versions s depId).getLast? = some target) :
    rollback_deployment s depId none true now =
      ⟨200,
        save_deployment s { dep with
          containerId := target.containerId
          config := target.config
          timestamp := now
          version := target.version },
        [DockerEffect.stopContainer dep.containerId,
         DockerEffect.startContainer target.containerId]⟩ ∧
    (∀ v ∈ get_deployment_versions s depId, target.version ≤ v.version) ∧
    ({ dep with
        containerId := target.containerId
        config := target.config
        timestamp := now
        version := target.version } : Deployment).status = dep.status ∧
    (∀ tag, DockerEffect.build tag
      ∉ (rollback_deployment s depId none true now).effects) := by
  have hne : get_deployment_versions s depId ≠ [] := by
    intro hnil
    rw [hnil] at htgt
    simp at htgt
  have hie : (get_deployment_versions s depId).isEmpty = false := by
    cases hV : get_deployment_versions s depId with
    | nil => exact absurd hV hne
    | cons a t => rfl
  have hsorted : (get_deployment_versions s depId).Sorted versionGE := by
    unfold get_deployment_versions
    exact List.sorted_insertionSort versionGE _
  have hmain : rollback_deployment s depId none true now =
      ⟨200,
        save_deployment s { dep with
          containerId := target.containerId
          config := target.config
          timestamp := now
          version := target.version },
        [DockerEffect.stopContainer dep.containerId,
         DockerEffect.startContainer target.containerId]⟩ := by
    unfold rollback_deployment
    simp only [hdep, hie, htgt]
    rfl
  refine ⟨hmain, ?_, rfl, ?_⟩
  · intro v hv
    exact versionGE_getLast_min _ hsorted target htgt v hv
  · intro tag
    rw [hmain]
    simp

/-- Claim C1, witness: the amended theorem applied to the two-version
store. -/
theorem rollback_spec_witness :
    get_deployment exStore "d1" = some exDep ∧
    (get_deployment_versions exStore "d1").getLast? = some exVersion1 ∧
    rollback_deployment exStore "d1" none true "t9" =
      ⟨200,
        save_deployment exStore { exDep with
          containerId := exVersion1.containerId
          config := exVersion1.config
          timestamp := "t9"
          version := exVersion1.version },
        [DockerEffect.stopContainer exDep.containerId,
         DockerEffect.startContainer exVersion1.containerId]⟩ :=
  ⟨by decide, by decide,
   (rollback_spec exStore "d1" "t9" exDep exVersion1 (by decide) (by decide)).1⟩

/-!
Claim C3 — the deployment executor.
-/

/-- In `x :: (l ++ [a, b])` the last element is `b`. -/
theorem getLast?_cons_append_pair {α : Type} (x a b : α) (l : List α) :
    (x :: (l ++ [a, b])).getLast? = some b := by
  rw [show x :: (l ++ [a, b]) = (x :: (l ++ [a])) ++ [b] by simp]
  exact List.getLast?_concat _

/-- Claim C3: `run_deployment_task` is a total function of its inputs — no
outcome of the deployment pipeline makes it throw.  On success it appends
the pipeline's log events and then a `success` event and a terminal `done`
event with `success = true`, and updates the record to `active` with the
container id, host port, and direct URL; on failure it appends an `error`
event and then a `done` event with `success = false` as the final two
events, and sets the record's status to `failed`.  In both cases a missing
deployment record makes the final record update a no-op. -/
theorem executor_spec (s : Store) (depId ip : String) (midLogs : List String) :
    (∀ cid port,
      (run_deployment_task s depId (Except.ok (cid, port)) ip midLogs).2
        = { type := LogType.info,
            message := "🚀 Worker picked up job for " ++ depId : LogRecord } ::
          (midLogs.map (fun msg => { type := LogType.log, message := msg }) ++
           [{ type := LogType.success,
              message := "✅ Deployment successful! Live at: "
                ++ ("http://" ++ ip ++ ":" ++ toString port) },
            { type := LogType.done, success := some true }]) ∧
      (run_deployment_task s depId (Except.ok (cid, port)) ip midLogs).2.getLast?
        = some { type := LogType.done, success := some true } ∧
      (get_deployment s depId = none →
        (run_deployment_task s depId (Except.ok (cid, port)) ip midLogs).1 = s) ∧
      (∀ dep, get_deployment s depId = some dep →
        get_deployment
            (run_deployment_task s depId (Except.ok (cid, port)) ip midLogs).1
            dep.id
          = some { dep with
              status := "active"
              containerId := some cid
              port := some port
              directUrl := some ("http://" ++ ip ++ ":" ++ toString port)
              url := "http://" ++ ip ++ ":" ++ toString port })) ∧
    (∀ msg,
      (∃ pre, (run_deployment_task s depId (Except.error msg) ip midLogs).2
        = pre ++ [{ type := LogType.error,
                    message := "❌ Deployment failed: " ++ msg },
                  { type := LogType.done, success := some false }]) ∧
      (run_deployment_task s depId (Except.error msg) ip midLogs).2.getLast?
        = some { type := LogType.done, success := some false } ∧
      (get_deployment s depId = none →
        (run_deployment_task s depId (Except.error msg) ip midLogs).1 = s) ∧
      (∀ dep, get_deployment s depId = some dep →
        get_deployment
            (run_deployment_task s depId (Except.error msg) ip midLogs).1
            dep.id
          = some { dep with status := "failed" })) := by
  constructor
  · intro cid port
    refine ⟨rfl, ?_, ?_, ?_⟩
    · exact getLast?_cons_append_pair _ _ _ _
    · intro h
      simp only [run_deployment_task, h]
    · intro dep hdep
      simp only [run_deployment_task, hdep]
      exact get_save_deployment s _
  · intro msg
    refine ⟨⟨({ type := LogType.info, message := "🚀 Worker picked up job for " ++ depId : LogRecord }) :: midLogs.map (fun m => ({ type := LogType.log, message := m } : LogRecord)), ?_⟩, ?_, ?_, ?_⟩
    · simp [run_deployment_task]
    · exact getLast?_cons_append_pair _ _ _ _
    · intro h
      simp only [run_deployment_task, h]
    · intro dep hdep
      simp only [run_deployment_task, hdep]
      exact get_save_deployment s _

/-- Claim C3, witness: the executor run on the two-version store, once
succeeding and once failing. -/
theorem executor_spec_witness :
    get_deployment exStore "d1" = some exDep ∧
    get_deployment (run_deployment_task exStore "d1" (Except.ok ("c9", 8081))
        "1.2.3.4" []).1 exDep.id
      = some { exDep with
          status := "active"
          containerId := some "c9"
          port := some 8081
          directUrl := some ("http://" ++ "1.2.3.4" ++ ":" ++ toString 8081)
          url := "http://" ++ "1.2.3.4" ++ ":" ++ toString 8081 } ∧
    get_deployment (run_deployment_task exStore "d1" (Except.error "boom")
        "1.2.3.4" []).1 exDep.id
      = some { exDep with status := "failed" } :=
  ⟨by decide,
   ((executor_spec exStore "d1" "1.2.3.4" []).1 "c9" 8081).2.2.2 exDep (by decide),
   ((executor_spec exStore "d1" "1.2.3.4" []).2 "boom").2.2.2 exDep (by decide)⟩

/-!
Claim C7 — the SSE log stream.
-/

/-- The records of mapped record frames. -/
theorem recordsOf_map_record (l : List LogRecord) :
    recordsOf (l.map Frame.record) = l := by
  induction l with
  | nil => rfl
  | cons r rs ih => simp [recordsOf, ih]

/-- `recordsOf` distributes over append. -/
theorem recordsOf_append (l1 l2 : List Frame) :
    recordsOf (l1 ++ l2) = recordsOf l1 ++ recordsOf l2 := by
  induction l1 with
  | nil => rfl
  | cons f fs ih => cases f <;> simp [recordsOf, ih]

/-- The batch loop forwards a prefix of the new records, as record
frames. -/
theorem forwardBatch_records (l : List LogRecord) :
    ∃ k, k ≤ l.length ∧ (forwardBatch l).1 = (l.take k).map Frame.record := by
  induction l with
  | nil => exact ⟨0, by simp, rfl⟩
  | cons r rs ih =>
    by_cases hr : r.type = LogType.done
    · exact ⟨1, by simp, by simp [forwardBatch, hr]⟩
    · obtain ⟨k, hk, hfb⟩ := ih
      rcases hF : forwardBatch rs with ⟨fs, d⟩
      rw [hF] at hfb
      have hfb2 : fs = (rs.take k).map Frame.record := hfb
      refine ⟨k + 1, by simpa using hk, ?_⟩
      simp only [forwardBatch, hr, if_false, hF, List.take_succ_cons,
        List.map_cons]
      simp [hfb2]

/-- When the batch loop hits no `done`, it forwards everything. -/
theorem forwardBatch_not_done (l : List LogRecord)
    (h : (forwardBatch l).2 = false) :
    (forwardBatch l).1 = l.map Frame.record ∧
    ∀ r ∈ l, r.type ≠ LogType.done := by
  induction l with
  | nil => exact ⟨rfl, by simp⟩
  | cons r rs ih =>
    rcases hF : forwardBatch rs with ⟨fs, d⟩
    by_cases hr : r.type = LogType.done
    · exfalso
      simp [forwardBatch, hr] at h
    · have hd : d = false := by
        have := h
        simp only [forwardBatch, hr, if_false, hF] at this
        exact this
      subst hd
      have hrs := ih (by rw [hF])
      rw [hF] at hrs
      constructor
      · simp only [forwardBatch, hr, if_false, hF]
        simpa using hrs.1
      · intro x hx
        rcases List.mem_cons.mp hx with rfl | hx2
        · exact hr
        · exact hrs.2 x hx2

/-- When the batch loop hits a `done`, the forwarded frames are some
non-`done` records followed by exactly one `done` record, which is last. -/
theorem forwardBatch_done_struct (l : List LogRecord)
    (h : (forwardBatch l).2 = true) :
    ∃ (pre : List LogRecord) (rd : LogRecord),
      (forwardBatch l).1 = pre.map Frame.record ++ [Frame.record rd] ∧
      rd.type = LogType.done ∧ ∀ x ∈ pre, x.type ≠ LogType.done := by
  induction l with
  | nil => simp [forwardBatch] at h
  | cons r rs ih =>
    by_cases hr : r.type = LogType.done
    · exact ⟨[], r, by simp [forwardBatch, hr], hr, by simp⟩
    · rcases hF : forwardBatch rs with ⟨fs, d⟩
      have hd : d = true := by
        have := h
        simp only [forwardBatch, hr, if_false, hF] at this
        exact this
      subst hd
      obtain ⟨pre, rd, h1, h2, h3⟩ := ih (by rw [hF])
      rw [hF] at h1
      refine ⟨r :: pre, rd, ?_, h2, ?_⟩
      · simp only [forwardBatch, hr, if_false, hF]
        simpa using h1
      · intro x hx
        rcases List.mem_cons.mp hx with rfl | hx2
        · exact hr
        · exact h3 x hx2

/-- Poll-loop equation: exhausted schedule. -/
theorem sseRun_nil (lastIdx e : Nat) : sseRun [] lastIdx e = ([], 0, false) := rfl

/-- Poll-loop equation: an empty poll below the threshold sleeps and
recurses with the counter bumped. -/
theorem sseRun_cons_empty (snap : List LogRecord) (rest : List (List LogRecord))
    (lastIdx e : Nat) (h : (snap.drop lastIdx).isEmpty = true)
    (ht : ¬ 2400 < e + 1) :
    sseRun (snap :: rest) lastIdx e
      = ((sseRun rest lastIdx (e + 1)).1,
         (sseRun rest lastIdx (e + 1)).2.1 + 1,
         (sseRun rest lastIdx (e + 1)).2.2) := by
  rcases hX : sseRun rest lastIdx (e + 1) with ⟨fs, sl, c⟩
  simp only [sseRun, h, if_true, hX]
  rw [if_neg ht]

/-- Poll-loop equation: an empty poll beyond the threshold emits the
timeout frame and closes. -/
theorem sseRun_cons_timeout (snap : List LogRecord)
    (rest : List (List LogRecord)) (lastIdx e : Nat)
    (h : (snap.drop lastIdx).isEmpty = true) (ht : 2400 < e + 1) :
    sseRun (snap :: rest) lastIdx e = ([Frame.timeout], 0, true) := by
  simp only [sseRun, h, if_true]
  rw [if_pos ht]

/-- Poll-loop equation: a non-empty poll whose batch hits `done` forwards
the batch and closes. -/
theorem sseRun_cons_done (snap : List LogRecord) (rest : List (List LogRecord))
    (lastIdx e : Nat) (h : (snap.drop lastIdx).isEmpty = false)
    (hd : (forwardBatch (snap.drop lastIdx)).2 = true) :
    sseRun (snap :: rest) lastIdx e
      = ((forwardBatch (snap.drop lastIdx)).1, 0, true) := by
  rcases hF : forwardBatch (snap.drop lastIdx) with ⟨fs, d⟩
  rw [hF] at hd
  have hd2 : d = true := hd
  subst hd2
  simp only [sseRun, h, Bool.false_eq_true, if_false, hF]
  simp

/-- Poll-loop equation: a non-empty poll with no `done` forwards the whole
batch, advances the offset, resets the counter, and recurses. -/
theorem sseRun_cons_forward (snap : List LogRecord)
    (rest : List (List LogRecord)) (lastIdx e : Nat)
    (h : (snap.drop lastIdx).isEmpty = false)
    (hd : (forwardBatch (snap.drop lastIdx)).2 = false) :
    sseRun (snap :: rest) lastIdx e
      = ((forwardBatch (snap.drop lastIdx)).1 ++
           (sseRun rest (lastIdx + (snap.drop lastIdx).length) 0).1,
         (sseRun rest (lastIdx + (snap.drop lastIdx).length) 0).2.1,
         (sseRun rest (lastIdx + (snap.drop lastIdx).length) 0).2.2) := by
  rcases hF : forwardBatch (snap.drop lastIdx) with ⟨fs, d⟩
  rw [hF] at hd
  have hd2 : d = false := hd
  subst hd2
  rcases hX : sseRun rest (lastIdx + (snap.drop lastIdx).length) 0 with ⟨fs2, sl, c⟩
  simp only [sseRun, h, Bool.false_eq_true, if_false, hF, hX]

/-- SSE order: the frames a consumer emits forward a prefix of the log bus
in append order, provided every poll snapshot is a prefix of the bus. -/
theorem sseRun_order (bus : List LogRecord) :
    ∀ (snaps : List (List LogRecord)) (lastIdx e : Nat),
      (∀ snap ∈ snaps, snap <+: bus) →
      ∃ k, recordsOf (sseRun snaps lastIdx e).1 = (bus.drop lastIdx).take k := by
  intro snaps
  induction snaps with
  | nil =>
    intro lastIdx e _
    exact ⟨0, by simp [sseRun_nil, recordsOf]⟩
  | cons snap rest ih =>
    intro lastIdx e hpre
    have hsnap : snap <+: bus := hpre snap (List.mem_cons_self _ _)
    have hrest : ∀ x ∈ rest, x <+: bus :=
      fun x hx => hpre x (List.mem_cons_of_mem _ hx)
    by_cases hemp : (snap.drop lastIdx).isEmpty = true
    · by_cases ht : 2400 < e + 1
      · rw [sseRun_cons_timeout snap rest lastIdx e hemp ht]
        exact ⟨0, by simp [recordsOf]⟩
      · rw [sseRun_cons_empty snap rest lastIdx e hemp ht]
        exact ih lastIdx (e + 1) hrest
    · replace hemp := Bool.not_eq_true _ ▸ hemp
      have hnews : snap.drop lastIdx <+: bus.drop lastIdx :=
        hsnap.drop lastIdx
      have hneq : snap.drop lastIdx
          = (bus.drop lastIdx).take (snap.drop lastIdx).length :=
        List.prefix_iff_eq_take.mp hnews
      by_cases hd : (forwardBatch (snap.drop lastIdx)).2 = true
      · rw [sseRun_cons_done snap rest lastIdx e hemp hd]
        obtain ⟨k, hk, hfb⟩ := forwardBatch_records (snap.drop lastIdx)
        refine ⟨k, ?_⟩
        rw [hfb, recordsOf_map_record]
        conv_lhs => rw [hneq]
        rw [List.take_take, Nat.min_eq_left hk]
      · replace hd := Bool.not_eq_true _ ▸ hd
        rw [sseRun_cons_forward snap rest lastIdx e hemp hd]
        obtain ⟨hfb, _⟩ := forwardBatch_not_done _ hd
        obtain ⟨k2, hk2⟩ := ih (lastIdx + (snap.drop lastIdx).length) 0 hrest
        refine ⟨(snap.drop lastIdx).length + k2, ?_⟩
        rw [recordsOf_append, hfb, recordsOf_map_record, hk2, List.take_add,
          List.drop_drop, ← hneq]

/-- SSE termination on `done`: when a forwarded record has type `done`, it
is the final frame and the stream closes. -/
theorem sseRun_done_terminal :
    ∀ (snaps : List (List LogRecord)) (lastIdx e : Nat) (r : LogRecord),
      Frame.record r ∈ (sseRun snaps lastIdx e).1 → r.type = LogType.done →
      (sseRun snaps lastIdx e).1.getLast? = some (Frame.record r) ∧
      (sseRun snaps lastIdx e).2.2 = true := by
  intro snaps
  induction snaps with
  | nil =>
    intro lastIdx e r hm _
    rw [sseRun_nil] at hm
    simp at hm
  | cons snap rest ih =>
    intro lastIdx e r hm hr
    by_cases hemp : (snap.drop lastIdx).isEmpty = true
    · by_cases ht : 2400 < e + 1
      · rw [sseRun_cons_timeout snap rest lastIdx e hemp ht] at hm
        simp at hm
      · rw [sseRun_cons_empty snap rest lastIdx e hemp ht] at hm ⊢
        exact ih lastIdx (e + 1) r hm hr
    · replace hemp := Bool.not_eq_true _ ▸ hemp
      by_cases hd : (forwardBatch (snap.drop lastIdx)).2 = true
      · rw [sseRun_cons_done snap rest lastIdx e hemp hd] at hm ⊢
        obtain ⟨pre, rd, hfb, hrd, hpre⟩ :=
          forwardBatch_done_struct _ hd
        rw [hfb] at hm ⊢
        rcases List.mem_append.mp hm with hmem | hmem
        · rcases List.mem_map.mp hmem with ⟨x, hx, hxr⟩
          injection hxr with hxy
          subst hxy
          exact absurd hr (hpre _ hx)
        · have h2 := List.mem_singleton.mp hmem
          injection h2 with h3
          subst h3
          exact ⟨List.getLast?_concat _, rfl⟩
      · replace hd := Bool.not_eq_true _ ▸ hd
        rw [sseRun_cons_forward snap rest lastIdx e hemp hd] at hm ⊢
        obtain ⟨hfb, hnodone⟩ := forwardBatch_not_done _ hd
        rcases List.mem_append.mp hm with hmem | hmem
        · exfalso
          rw [hfb] at hmem
          rcases List.mem_map.mp hmem with ⟨x, hx, hxr⟩
          injection hxr with hxy
          subst hxy
          exact absurd hr (hnodone _ hx)
        · have hrec := ih (lastIdx + (snap.drop lastIdx).length) 0 r hmem hr
          constructor
          · rw [List.getLast?_append, hrec.1]
            rfl
          · exact hrec.2

/-- A silent bus: up to 2400 consecutive empty polls keep the stream open,
sleeping once per poll. -/
theorem sseRun_silent_open :
    ∀ (n lastIdx e : Nat), e + n ≤ 2400 →
      sseRun (List.replicate n []) lastIdx e = ([], n, false) := by
  intro n
  induction n with
  | zero => intro lastIdx e _; rfl
  | succ n ih =>
    intro lastIdx e hle
    rw [List.replicate_succ]
    have hemp : ((List.nil : List LogRecord).drop lastIdx).isEmpty = true := by
      simp
    have ht : ¬ 2400 < e + 1 := by omega
    rw [sseRun_cons_empty _ _ _ _ hemp ht, ih lastIdx (e + 1) (by omega)]

/-- A silent bus: once the empty-poll counter would exceed 2400, the
timeout frame is emitted and the stream closes, after exactly `n - 1`
sleeps on an `n`-poll silent schedule. -/
theorem sseRun_silent_timeout :
    ∀ (n lastIdx e : Nat), e + n = 2401 → e ≤ 2400 →
      sseRun (List.replicate n []) lastIdx e
        = ([Frame.timeout], n - 1, true) := by
  intro n
  induction n with
  | zero => intro lastIdx e h1 h2; exact absurd h1 (by omega)
  | succ n ih =>
    intro lastIdx e h1 h2
    rw [List.replicate_succ]
    have hemp : ((List.nil : List LogRecord).drop lastIdx).isEmpty = true := by
      simp
    by_cases ht : 2400 < e + 1
    · rw [sseRun_cons_timeout _ _ _ _ hemp ht]
      have hn : n = 0 := by omega
      subst hn
      rfl
    · rw [sseRun_cons_empty _ _ _ _ hemp ht,
        ih lastIdx (e + 1) (by omega) (by omega)]
      have hn : 1 ≤ n := by omega
      have h3 : n - 1 + 1 = n := by omega
      have h4 : n + 1 - 1 = n := by omega
      rw [h3, h4]

/-- Claim C7: for every SSE log-stream consumer, (order) the forwarded
records are a prefix of the log bus in append order whenever each poll
snapshot is a prefix of the bus; (done-terminal) the stream closes
immediately after forwarding a record of type `done`, which is the final
frame; (timeout) on a silent bus the consumer stays open through 2400
consecutive empty polls — sleeping 0.5 s after each, 2400 × 500 ms = 20
minutes of silence — and the next poll emits a client-visible timeout
error frame and closes; the consumer only reads the bus, so no server-side
deployment state changes. -/
theorem sse_stream_spec :
    (∀ (bus : List LogRecord) (snaps : List (List LogRecord)),
      (∀ snap ∈ snaps, snap <+: bus) →
      ∃ k, recordsOf (stream_logs_generate snaps).1 = bus.take k) ∧
    (∀ (snaps : List (List LogRecord)) (r : LogRecord),
      Frame.record r ∈ (stream_logs_generate snaps).1 →
      r.type = LogType.done →
      (stream_logs_generate snaps).1.getLast? = some (Frame.record r) ∧
      (stream_logs_generate snaps).2.2 = true) ∧
    (∀ n : Nat, n ≤ 2400 →
      stream_logs_generate (List.replicate n []) = ([Frame.attach], n, false)) ∧
    stream_logs_generate (List.replicate 2401 [])
      = ([Frame.attach, Frame.timeout], 2400, true) ∧
    2400 * 500 = 20 * 60 * 1000 := by
  refine ⟨?_, ?_, ?_, ?_, by norm_num⟩
  · intro bus snaps h
    obtain ⟨k, hk⟩ := sseRun_order bus snaps 0 0 h
    rcases hX : sseRun snaps 0 0 with ⟨fs, sl, c⟩
    rw [hX] at hk
    refine ⟨k, ?_⟩
    simp only [stream_logs_generate, hX]
    have hrec : recordsOf (Frame.attach :: fs) = recordsOf fs := rfl
    rw [hrec]
    simpa using hk
  · intro snaps r hm hr
    rcases hX : sseRun snaps 0 0 with ⟨fs, sl, c⟩
    simp only [stream_logs_generate, hX] at hm ⊢
    have hfs : Frame.record r ∈ fs := by
      rcases List.mem_cons.mp hm with h2 | h2
      · exact absurd h2 (by simp)
      · exact h2
    have hs := sseRun_done_terminal snaps 0 0 r (by rw [hX]; exact hfs) hr
    rw [hX] at hs
    constructor
    · cases fs with
      | nil => simp at hfs
      | cons f0 fs2 =>
        rw [List.getLast?_cons_cons]
        exact hs.1
    · exact hs.2
  · intro n hn
    simp only [stream_logs_generate, sseRun_silent_open n 0 0 (by omega)]
  · simp only [stream_logs_generate,
      sseRun_silent_timeout 2401 0 0 (by norm_num) (by norm_num)]

/-- Claim C7, witness: the claim theorem applied to a concrete two-poll
schedule that ends in a `done` record, and to a short silent schedule. -/
theorem sse_stream_spec_witness :
    (∀ snap ∈ exSnaps, snap <+: exBus) ∧
    (∃ k, recordsOf (stream_logs_generate exSnaps).1 = exBus.take k) ∧
    (Frame.record exDoneRec ∈ (stream_logs_generate exSnaps).1 ∧
      (stream_logs_generate exSnaps).1.getLast?
        = some (Frame.record exDoneRec)) ∧
    ((5 : Nat) ≤ 2400 ∧
      stream_logs_generate (List.replicate 5 []) = ([Frame.attach], 5, false)) :=
  ⟨by decide,
   sse_stream_spec.1 exBus exSnaps (by decide),
   ⟨by decide, (sse_stream_spec.2.1 exSnaps exDoneRec (by decide) rfl).1⟩,
   ⟨by decide, sse_stream_spec.2.2.1 5 (by decide)⟩⟩

end DeployPlatform
